import Mathlib

/-!
Verification of the CANFAR/Prefect reconciliation and supervision core
(`automation/canfar_polling.py`, `automation/canfar_wrapper.py`,
`print_all_open_sessions.py`) as a shallow embedding.

Modelling conventions:
* A pandas DataFrame returned by `get_open_sessions` is a `Frame`: a list of
  rows plus flags recording whether the 'status' and 'id' columns are present
  (`pd.DataFrame()` with no rows also has no columns).  A NaN entry in the
  'id' column (removed by `.dropna()`) is `Option.none`.
* Exceptions are `Except Unit`: the `try` block around the remote-truth fetch
  in `reconcile_running_prefect_with_canfar` is a `match` on that value.
* The orchestrator write `_fail_flow_run(flow_run_id, reason)` is recorded in
  an output list of `FailWrite`, in call order, instead of being performed.
* The supervisor's environment is a function from attempt index to the
  observable behaviour of that attempt: the outcome of `canfar_task(*args)`
  (`none` models a raised exception) and the sequence of statuses
  `get_session_status` reports while `poll_canfar` runs.  `poll_canfar`
  looping forever (no terminal status ever observed) is modelled by the
  observation list running out, and surfaces as the `diverges` outcome.
-/

/-- Status strings reported by CANFAR for a session
(`canfar_wrapper.py` line 73). -/
inductive CanfarStatus where
  | pending
  | running
  | terminating
  | succeeded
  | completed
  | error
  | failed
deriving DecidableEq

/-! Python `str` primitives used by the two modules, stated on the character
list of the string so that concrete instances reduce inside the kernel. -/

/-- Characters Python's `str.strip()` removes (the ASCII whitespace set). -/
def isPyWhitespace (c : Char) : Bool :=
  c == ' ' || c == '\t' || c == '\n' || c == '\r' || c == '\x0b' || c == '\x0c'

/-- Python `s.startswith(p)`. -/
def strStartsWith (s p : String) : Bool := p.data.isPrefixOf s.data

/-- Python `s[n:]` (slicing off the first `n` characters). -/
def strDrop (s : String) (n : Nat) : String := ⟨s.data.drop n⟩

/-- Python `s.strip()`: drop leading and trailing whitespace. -/
def strTrim (s : String) : String :=
  ⟨((s.data.dropWhile isPyWhitespace).reverse.dropWhile isPyWhitespace).reverse⟩

/-- Python `s.lower()`. -/
def strToLower (s : String) : String := ⟨s.data.map Char.toLower⟩

/-- `canfar_polling.TAG_PREFIX = "canfar_session:"`. -/
def TAG_PREFIX : String := "canfar_session:"

/-- A Prefect flow-run as the reconciler sees it: its id and its tags. -/
structure FlowRun where
  id : Nat
  tags : List String
deriving DecidableEq

/-- One row of the DataFrame built by `get_open_sessions`:
the 'status' and 'id' cells.  `id = none` models a NaN id. -/
structure FrameRow where
  status : String
  id : Option String
deriving DecidableEq

/-- The DataFrame built by `get_open_sessions`: rows plus presence flags for
the 'status' and 'id' columns. -/
structure Frame where
  hasStatusCol : Bool
  hasIdCol : Bool
  rows : List FrameRow
deriving DecidableEq

/-- One `_fail_flow_run` orchestrator write: target flow-run id and message. -/
structure FailWrite where
  flowRunId : Nat
  reason : String
deriving DecidableEq

/-- `canfar_polling.ReconcileResult` (dataclass, lines 51-59). -/
structure ReconcileResult where
  canfar_ok : Bool
  running_flow_runs : Nat
  checked_tagged_running : Nat
  failed_marked : Nat
  skipped_untagged : Nat
  missing_or_not_running : Nat
deriving DecidableEq

/-- `canfar_polling.extract_session_id_from_tags` (lines 62-68): return the
trimmed remainder of the first tag starting with `"canfar_session:"`, with an
empty remainder after trimming collapsed to `none` (`return sid or None`). -/
def extract_session_id_from_tags : List String → Option String
  | [] => none
  | t :: ts =>
    if strStartsWith t TAG_PREFIX then
      let sid := strTrim (strDrop t TAG_PREFIX.length)
      if sid = "" then none else some sid
    else extract_session_id_from_tags ts

/-- `canfar_polling.build_running_canfar_session_set` (lines 71-82): ids of
rows whose status lower-cases to "running", NaN ids dropped, trimmed, empty
dropped.  The Python set is kept as a list; only membership is consumed. -/
def build_running_canfar_session_set (session_df : Option Frame) : List String :=
  match session_df with
  | none => []
  | some df =>
    if df.rows.length = 0 then []
    else if !(df.hasStatusCol && df.hasIdCol) then []
    else
      let running := df.rows.filter (fun r => strToLower r.status == "running")
      ((running.filterMap (fun r => r.id)).map strTrim).filter (fun s => s != "")

/-- The message passed to `_fail_flow_run` (lines 166-169). -/
def failReason (session_id : String) : String :=
  "CANFAR session missing or not RUNNING while Prefect flow-run is RUNNING. session_id="
    ++ session_id ++ "."

/-- Per-pass accumulator of the reconcile loop (lines 156-171). -/
structure ReconcileAcc where
  checked : Nat
  skipped : Nat
  missing : Nat
  failedMarked : Nat
  writes : List FailWrite
deriving DecidableEq

/-- The `for fr in running_flow_runs` loop of lines 156-171, processed
left-to-right (the recursion consumes the head first and conses its write in
front of the writes of the tail, preserving call order). -/
def reconcileLoop (s : List String) : List FlowRun → ReconcileAcc
  | [] => ⟨0, 0, 0, 0, []⟩
  | fr :: rest =>
    let r := reconcileLoop s rest
    match extract_session_id_from_tags fr.tags with
    | none => { r with skipped := r.skipped + 1 }
    | some sid =>
      if s.contains sid then
        { r with checked := r.checked + 1 }
      else
        { r with
            checked := r.checked + 1
            missing := r.missing + 1
            failedMarked := r.failedMarked + 1
            writes := ⟨fr.id, failReason sid⟩ :: r.writes }

/-- `canfar_polling.reconcile_running_prefect_with_canfar` (lines 111-188).
`fetch` is the outcome of `get_open_sessions()` inside the `try` block;
`running_flow_runs` is what `_fetch_prefect_running_flow_runs` returned.
The second component collects every `_fail_flow_run` write performed. -/
def reconcile_running_prefect_with_canfar (fetch : Except Unit (Option Frame))
    (running_flow_runs : List FlowRun) : ReconcileResult × List FailWrite :=
  match fetch with
  | .error _ =>
    let checked := running_flow_runs.countP
      (fun fr => (extract_session_id_from_tags fr.tags).isSome)
    let skipped := running_flow_runs.countP
      (fun fr => (extract_session_id_from_tags fr.tags).isNone)
    (⟨false, running_flow_runs.length, checked, 0, skipped, 0⟩, [])
  | .ok session_df =>
    let s := build_running_canfar_session_set session_df
    let acc := reconcileLoop s running_flow_runs
    (⟨true, running_flow_runs.length, acc.checked, acc.failedMarked,
        acc.skipped, acc.missing⟩, acc.writes)

/-! ## Supervisor (`canfar_wrapper.py`) -/

/-- Terminal statuses of the poll loop (`canfar_wrapper.py` line 75):
`Completed`, `Succeeded`, `Error`, `Failed` or `None` (session deleted). -/
def isTerminalStatus (s : Option CanfarStatus) : Bool :=
  match s with
  | none => true
  | some .completed => true
  | some .succeeded => true
  | some .error => true
  | some .failed => true
  | _ => false

/-- `canfar_wrapper.poll_canfar` (lines 63-79) applied to the sequence of
statuses `get_session_status` reports: the first terminal observation, or
`none` when the loop never sees one (the Python loop never returns then). -/
def poll_canfar : List (Option CanfarStatus) → Option (Option CanfarStatus)
  | [] => none
  | s :: rest => if isTerminalStatus s then some s else poll_canfar rest

/-- Observable behaviour of one supervisor attempt: what `canfar_task(*args)`
did (`none` = raised, `some s` = returned `s`, possibly the empty string) and
the statuses observed while polling. -/
structure Attempt where
  launch : Option String
  obs : List (Option CanfarStatus)

/-- How one call of `run_canfar_task_with_polling` ends: normal return,
the `RuntimeError` after exhausting retries, or never (a poll that never
reaches a terminal status). -/
inductive RunOutcome where
  | success
  | exhausted
  | diverges
deriving DecidableEq

/-- Result of a supervisor run together with the number of `canfar_task`
invocations and of forensic log captures (`session.logs(...)`, line 42). -/
structure RunStats where
  outcome : RunOutcome
  launches : Nat
  logCaptures : Nat
deriving DecidableEq

/-- The `while retry_count <= MAX_RETRY` loop of
`run_canfar_task_with_polling` (lines 28-51), by recursion on the number of
attempts still allowed; `env` is shifted by one at each retry. -/
def runAux : (Nat → Attempt) → Nat → Nat → Nat → RunStats
  | _, 0, launches, logs => ⟨.exhausted, launches, logs⟩
  | env, budget + 1, launches, logs =>
    match (env 0).launch with
    | none => runAux (fun n => env (n + 1)) budget (launches + 1) logs
    | some s =>
      if s = "" then runAux (fun n => env (n + 1)) budget (launches + 1) logs
      else
        match poll_canfar (env 0).obs with
        | none => ⟨.diverges, launches + 1, logs⟩
        | some st =>
          if st = some .completed || st = some .succeeded then
            ⟨.success, launches + 1, logs + 1⟩
          else
            runAux (fun n => env (n + 1)) budget (launches + 1) (logs + 1)

/-- `canfar_wrapper.run_canfar_task_with_polling` (lines 21-51):
`MAX_RETRY + 1` total attempts. -/
def run_canfar_task_with_polling (MAX_RETRY : Nat) (env : Nat → Attempt) : RunStats :=
  runAux env (MAX_RETRY + 1) 0 0

/-- An attempt the supervisor treats as failed: the launch raised, returned a
falsy session id, or polling ended in a terminal status other than
`Completed`/`Succeeded`.  A polling loop that never terminates is not a
failed attempt (the supervisor never gets past it). -/
def attemptFails (a : Attempt) : Bool :=
  match a.launch with
  | none => true
  | some s =>
    if s = "" then true
    else
      match poll_canfar a.obs with
      | none => false
      | some st => !(st = some .completed || st = some .succeeded)

/-- An attempt that obtains a session id and polls to `Completed` or
`Succeeded`. -/
def attemptSucceeds (a : Attempt) : Bool :=
  match a.launch with
  | none => false
  | some s =>
    if s = "" then false
    else
      match poll_canfar a.obs with
      | none => false
      | some st => st = some .completed || st = some .succeeded

/-! ## Reconciler lemmas -/

theorem reconcileLoop_missing_eq_failedMarked (s : List String) (frs : List FlowRun) :
    (reconcileLoop s frs).missing = (reconcileLoop s frs).failedMarked := by
  induction frs with
  | nil => rfl
  | cons fr rest ih =>
    simp only [reconcileLoop]
    cases h : extract_session_id_from_tags fr.tags with
    | none => simpa using ih
    | some sid => by_cases hc : sid ∈ s <;> simp [hc, ih]

theorem reconcileLoop_checked_add_skipped (s : List String) (frs : List FlowRun) :
    (reconcileLoop s frs).checked + (reconcileLoop s frs).skipped = frs.length := by
  induction frs with
  | nil => rfl
  | cons fr rest ih =>
    simp only [reconcileLoop, List.length_cons]
    cases h : extract_session_id_from_tags fr.tags with
    | none => simp only []; omega
    | some sid => by_cases hc : sid ∈ s <;> simp [hc] <;> omega

theorem reconcileLoop_skipped_countP (s : List String) (frs : List FlowRun) :
    (reconcileLoop s frs).skipped =
      frs.countP (fun fr => (extract_session_id_from_tags fr.tags).isNone) := by
  induction frs with
  | nil => rfl
  | cons fr rest ih =>
    simp only [reconcileLoop, List.countP_cons]
    cases h : extract_session_id_from_tags fr.tags with
    | none => simp [h, ih]
    | some sid => by_cases hc : sid ∈ s <;> simp [h, hc, ih]

theorem reconcileLoop_checked_countP (s : List String) (frs : List FlowRun) :
    (reconcileLoop s frs).checked =
      frs.countP (fun fr => (extract_session_id_from_tags fr.tags).isSome) := by
  induction frs with
  | nil => rfl
  | cons fr rest ih =>
    simp only [reconcileLoop, List.countP_cons]
    cases h : extract_session_id_from_tags fr.tags with
    | none => simp [h, ih]
    | some sid => by_cases hc : sid ∈ s <;> simp [h, hc, ih]

theorem reconcileLoop_failedMarked_countP (s : List String) (frs : List FlowRun) :
    (reconcileLoop s frs).failedMarked =
      frs.countP (fun fr =>
        match extract_session_id_from_tags fr.tags with
        | none => false
        | some sid => !(s.contains sid)) := by
  induction frs with
  | nil => rfl
  | cons fr rest ih =>
    simp only [reconcileLoop, List.countP_cons]
    cases h : extract_session_id_from_tags fr.tags with
    | none => simp [h, ih]
    | some sid => by_cases hc : sid ∈ s <;> simp [h, hc, ih]

theorem reconcileLoop_writes_eq (s : List String) (frs : List FlowRun) :
    (reconcileLoop s frs).writes =
      frs.filterMap (fun fr =>
        match extract_session_id_from_tags fr.tags with
        | none => none
        | some sid =>
          if s.contains sid then none else some ⟨fr.id, failReason sid⟩) := by
  induction frs with
  | nil => rfl
  | cons fr rest ih =>
    simp only [reconcileLoop, List.filterMap_cons]
    cases h : extract_session_id_from_tags fr.tags with
    | none => simp [h, ih]
    | some sid => by_cases hc : sid ∈ s <;> simp [h, hc, ih]

theorem reconcileLoop_writes_tagged_only (s : List String) (frs : List FlowRun) :
    (reconcileLoop s
        (frs.filter (fun fr => (extract_session_id_from_tags fr.tags).isSome))).writes =
      (reconcileLoop s frs).writes := by
  induction frs with
  | nil => rfl
  | cons fr rest ih =>
    rw [List.filter_cons]
    cases h : extract_session_id_from_tags fr.tags with
    | none => simpa [reconcileLoop, h] using ih
    | some sid =>
      by_cases hc : sid ∈ s <;> simp [reconcileLoop, h, hc, ih]

theorem countP_isSome_add_isNone (frs : List FlowRun) :
    frs.countP (fun fr => (extract_session_id_from_tags fr.tags).isSome) +
      frs.countP (fun fr => (extract_session_id_from_tags fr.tags).isNone) =
      frs.length := by
  induction frs with
  | nil => rfl
  | cons fr rest ih =>
    rw [List.countP_cons, List.countP_cons, List.length_cons]
    cases h : extract_session_id_from_tags fr.tags <;> simp [h] <;> omega

/-! ## Reconciler claims -/

/-- Claim C1: when the remote-truth fetch raises, the pass returns
`canfar_ok = false`, `failed_marked = 0`, `missing_or_not_running = 0` and
performs no `_fail_flow_run` write, regardless of the fetched Running
records. -/
theorem claim_C1_outage_fail_safe (frs : List FlowRun) :
    (reconcile_running_prefect_with_canfar (Except.error ()) frs).1.canfar_ok = false ∧
    (reconcile_running_prefect_with_canfar (Except.error ()) frs).1.failed_marked = 0 ∧
    (reconcile_running_prefect_with_canfar (Except.error ()) frs).1.missing_or_not_running = 0 ∧
    (reconcile_running_prefect_with_canfar (Except.error ()) frs).2 = [] :=
  ⟨rfl, rfl, rfl, rfl⟩

/-- Claim C3: in a pass with available truth, the performed writes are exactly
one Failed transition per tagged record whose session id is outside the
confirmed-running set, each carrying a message embedding that session id, and
records whose id is in the set (or untagged ones) contribute no write. -/
theorem claim_C3_escalation_writes (df : Option Frame) (frs : List FlowRun) :
    (reconcile_running_prefect_with_canfar (Except.ok df) frs).2 =
      frs.filterMap (fun fr =>
        match extract_session_id_from_tags fr.tags with
        | none => none
        | some sid =>
          if (build_running_canfar_session_set df).contains sid then none
          else some ⟨fr.id, failReason sid⟩) ∧
    ∀ sid, ∃ a b, failReason sid = a ++ sid ++ b := by
  constructor
  · exact reconcileLoop_writes_eq _ frs
  · intro sid
    exact ⟨"CANFAR session missing or not RUNNING while Prefect flow-run is RUNNING. session_id=",
      ".", rfl⟩

/-- Claim C4: whenever the pass ran with available truth,
`missing_or_not_running = failed_marked`. -/
theorem claim_C4_missing_eq_failed (df : Option Frame) (frs : List FlowRun) :
    (reconcile_running_prefect_with_canfar (Except.ok df) frs).1.missing_or_not_running =
      (reconcile_running_prefect_with_canfar (Except.ok df) frs).1.failed_marked :=
  reconcileLoop_missing_eq_failedMarked _ frs

/-- Claim C9: in every pass, outage or not,
`checked_tagged_running + skipped_untagged = running_flow_runs`: each fetched
Running record increments exactly one of the two counters. -/
theorem claim_C9_counter_partition (fetch : Except Unit (Option Frame))
    (frs : List FlowRun) :
    (reconcile_running_prefect_with_canfar fetch frs).1.checked_tagged_running +
      (reconcile_running_prefect_with_canfar fetch frs).1.skipped_untagged =
      (reconcile_running_prefect_with_canfar fetch frs).1.running_flow_runs := by
  cases fetch with
  | error e => exact countP_isSome_add_isNone frs
  | ok df => exact reconcileLoop_checked_add_skipped _ frs

/-- Claim C5: the session id of a record is the whitespace-trimmed remainder
of its first tag starting with "canfar_session:", an empty remainder counting
as no id; records without an id are tallied in `skipped_untagged` and
contribute nothing to the writes of any pass. -/
theorem claim_C5_first_tag_wins_untagged_skipped (tags : List String)
    (fetch : Except Unit (Option Frame)) (frs : List FlowRun) :
    extract_session_id_from_tags tags =
      (tags.find? (fun t => strStartsWith t TAG_PREFIX)).bind (fun t =>
        if strTrim (strDrop t TAG_PREFIX.length) = "" then none
        else some (strTrim (strDrop t TAG_PREFIX.length))) ∧
    (reconcile_running_prefect_with_canfar fetch frs).1.skipped_untagged =
      frs.countP (fun fr => (extract_session_id_from_tags fr.tags).isNone) ∧
    (reconcile_running_prefect_with_canfar fetch frs).2 =
      (reconcile_running_prefect_with_canfar fetch
        (frs.filter (fun fr => (extract_session_id_from_tags fr.tags).isSome))).2 := by
  refine ⟨?_, ?_, ?_⟩
  · induction tags with
    | nil => rfl
    | cons t ts ih =>
      by_cases h : strStartsWith t TAG_PREFIX = true
      · simp [extract_session_id_from_tags, List.find?_cons, h]
      · simp only [Bool.not_eq_true] at h
        simp [extract_session_id_from_tags, List.find?_cons, h, ih]
  · cases fetch with
    | error e => rfl
    | ok df => exact reconcileLoop_skipped_countP _ frs
  · cases fetch with
    | error e => rfl
    | ok df => exact (reconcileLoop_writes_tagged_only _ frs).symm

/-- Claim C10: a fetch that returns (rather than raises) an empty table, or a
table without the 'status' or 'id' columns, is not an outage: `canfar_ok`
stays true, the confirmed-running set is empty, and every tagged Running
record is escalated to Failed. -/
theorem claim_C10_degenerate_table_not_outage (df : Option Frame) (frs : List FlowRun)
    (h : df = none ∨ ∃ f, df = some f ∧
      (f.rows = [] ∨ f.hasStatusCol = false ∨ f.hasIdCol = false)) :
    build_running_canfar_session_set df = [] ∧
    (reconcile_running_prefect_with_canfar (Except.ok df) frs).1.canfar_ok = true ∧
    (reconcile_running_prefect_with_canfar (Except.ok df) frs).1.failed_marked =
      frs.countP (fun fr => (extract_session_id_from_tags fr.tags).isSome) ∧
    (reconcile_running_prefect_with_canfar (Except.ok df) frs).2 =
      frs.filterMap (fun fr => (extract_session_id_from_tags fr.tags).map
        (fun sid => ⟨fr.id, failReason sid⟩)) := by
  have hb : build_running_canfar_session_set df = [] := by
    rcases h with rfl | ⟨f, rfl, hcase⟩
    · rfl
    · rcases hcase with hr | hs | hi
      · simp [build_running_canfar_session_set, hr]
      · simp [build_running_canfar_session_set, hs]
      · simp [build_running_canfar_session_set, hi]
  refine ⟨hb, rfl, ?_, ?_⟩
  · show (reconcileLoop (build_running_canfar_session_set df) frs).failedMarked = _
    rw [hb, reconcileLoop_failedMarked_countP]
    apply List.countP_congr
    intro fr _
    cases hx : extract_session_id_from_tags fr.tags <;> simp [hx, List.contains]
  · show (reconcileLoop (build_running_canfar_session_set df) frs).writes = _
    rw [hb, reconcileLoop_writes_eq]
    congr 1
    funext fr
    cases hx : extract_session_id_from_tags fr.tags <;> simp [hx, List.contains]

/-- Witness for claim C10: an empty table with both columns present, one
tagged Running record; the record is escalated even though the set is
empty. -/
theorem claim_C10_witness :
    build_running_canfar_session_set (some ⟨true, true, []⟩) = [] ∧
    (reconcile_running_prefect_with_canfar (Except.ok (some ⟨true, true, []⟩))
      [⟨7, ["canfar_session:x"]⟩]).1.canfar_ok = true ∧
    (reconcile_running_prefect_with_canfar (Except.ok (some ⟨true, true, []⟩))
      [⟨7, ["canfar_session:x"]⟩]).1.failed_marked =
      ([⟨7, ["canfar_session:x"]⟩] : List FlowRun).countP
        (fun fr => (extract_session_id_from_tags fr.tags).isSome) ∧
    (reconcile_running_prefect_with_canfar (Except.ok (some ⟨true, true, []⟩))
      [⟨7, ["canfar_session:x"]⟩]).2 =
      ([⟨7, ["canfar_session:x"]⟩] : List FlowRun).filterMap
        (fun fr => (extract_session_id_from_tags fr.tags).map
          (fun sid => ⟨fr.id, failReason sid⟩)) :=
  claim_C10_degenerate_table_not_outage (some ⟨true, true, []⟩)
    [⟨7, ["canfar_session:x"]⟩] (Or.inr ⟨⟨true, true, []⟩, rfl, Or.inl rfl⟩)

/-- Counterexample to claim C6 as stated: a remote session whose status is
"RUNNING" differs from "running" only by letter case, yet its tagged record
receives zero Failed transitions (the claim demands exactly one), because the
status comparison lower-cases the status and so counts the session as
confirmed running. -/
theorem claim_C6_counterexample :
    extract_session_id_from_tags ["canfar_session:abc"] = some "abc" ∧
    strToLower "RUNNING" = "running" ∧
    ("RUNNING" : String) ≠ "running" ∧
    (build_running_canfar_session_set
      (some ⟨true, true, [⟨"RUNNING", some "abc"⟩]⟩)).contains "abc" = true ∧
    (reconcile_running_prefect_with_canfar
      (Except.ok (some ⟨true, true, [⟨"RUNNING", some "abc"⟩]⟩))
      [⟨1, ["canfar_session:abc"]⟩]).1.failed_marked = 0 ∧
    (reconcile_running_prefect_with_canfar
      (Except.ok (some ⟨true, true, [⟨"RUNNING", some "abc"⟩]⟩))
      [⟨1, ["canfar_session:abc"]⟩]).2 = [] := by
  refine ⟨by decide, by decide, by decide, by decide, by decide, by decide⟩

/-- Amended claim C6: in a truth-available pass every tagged record whose
session id is absent from the confirmed-running set contributes exactly one
Failed transition (`failed_marked` counts exactly those records), and
`missing_or_not_running = failed_marked`; a session whose status differs from
"running" only by letter case is confirmed running (the comparison is
case-insensitive), so its record is not escalated. -/
theorem claim_C6_amended_case_insensitive (df : Option Frame) (frs : List FlowRun) :
    (reconcile_running_prefect_with_canfar (Except.ok df) frs).1.failed_marked =
      frs.countP (fun fr =>
        match extract_session_id_from_tags fr.tags with
        | none => false
        | some sid => !((build_running_canfar_session_set df).contains sid)) ∧
    (reconcile_running_prefect_with_canfar (Except.ok df) frs).1.missing_or_not_running =
      (reconcile_running_prefect_with_canfar (Except.ok df) frs).1.failed_marked ∧
    (build_running_canfar_session_set
      (some ⟨true, true, [⟨"RUNNING", some "abc"⟩]⟩)).contains "abc" = true :=
  ⟨reconcileLoop_failedMarked_countP _ frs,
   reconcileLoop_missing_eq_failedMarked _ frs, by decide⟩

/-! ## Supervisor lemmas -/

theorem forall_lt_succ_iff (b : Nat) (P : Nat → Prop) :
    (∀ n < b + 1, P n) ↔ P 0 ∧ ∀ n < b, P (n + 1) := by
  constructor
  · intro h
    exact ⟨h 0 (Nat.succ_pos b), fun n hn => h (n + 1) (Nat.succ_lt_succ hn)⟩
  · rintro ⟨h0, h⟩ n hn
    match n with
    | 0 => exact h0
    | m + 1 => exact h m (Nat.lt_of_succ_lt_succ hn)

theorem runAux_launches_le (budget : Nat) : ∀ (env : Nat → Attempt) (l g : Nat),
    (runAux env budget l g).launches ≤ l + budget := by
  induction budget with
  | zero => intro env l g; simp [runAux]
  | succ b ih =>
    intro env l g
    rw [runAux]
    cases hl : (env 0).launch with
    | none =>
      simp only [hl]
      have := ih (fun n => env (n + 1)) (l + 1) g
      omega
    | some s =>
      simp only [hl]
      by_cases hs : s = ""
      · rw [if_pos hs]
        have := ih (fun n => env (n + 1)) (l + 1) g
        omega
      · rw [if_neg hs]
        cases hp : poll_canfar (env 0).obs with
        | none =>
          simp only [hp]
          show l + 1 ≤ l + (b + 1)
          omega
        | some st =>
          simp only [hp]
          by_cases hst : (decide (st = some CanfarStatus.completed) ||
              decide (st = some CanfarStatus.succeeded)) = true
          · rw [if_pos hst]
            show l + 1 ≤ l + (b + 1)
            omega
          · rw [if_neg hst]
            have := ih (fun n => env (n + 1)) (l + 1) (g + 1)
            omega

theorem runAux_exhausted_iff (budget : Nat) : ∀ (env : Nat → Attempt) (l g : Nat),
    (runAux env budget l g).outcome = RunOutcome.exhausted ↔
      ∀ n < budget, attemptFails (env n) = true := by
  induction budget with
  | zero => intro env l g; simp [runAux]
  | succ b ih =>
    intro env l g
    rw [runAux, forall_lt_succ_iff]
    cases hl : (env 0).launch with
    | none =>
      have h0 : attemptFails (env 0) = true := by simp [attemptFails, hl]
      simp only [hl, h0, true_and]
      exact ih (fun n => env (n + 1)) (l + 1) g
    | some s =>
      by_cases hs : s = ""
      · have h0 : attemptFails (env 0) = true := by simp [attemptFails, hl, hs]
        simp only [hl, if_pos hs, h0, true_and]
        exact ih (fun n => env (n + 1)) (l + 1) g
      · cases hp : poll_canfar (env 0).obs with
        | none =>
          have h0 : attemptFails (env 0) = false := by
            simp [attemptFails, hl, hs, hp]
          simp only [hl, if_neg hs, hp, h0]
          simp
        | some st =>
          by_cases hst : (decide (st = some CanfarStatus.completed) ||
              decide (st = some CanfarStatus.succeeded)) = true
          · have h0 : attemptFails (env 0) = false := by
              simp only [attemptFails, hl, if_neg hs, hp, hst]
              rfl
            simp only [hl, if_neg hs, hp, if_pos hst, h0]
            simp
          · have h0 : attemptFails (env 0) = true := by
              simp only [attemptFails, hl, if_neg hs, hp]
              simpa using hst
            simp only [hl, if_neg hs, hp, if_neg hst, h0, true_and]
            exact ih (fun n => env (n + 1)) (l + 1) (g + 1)

theorem runAux_all_raise (budget : Nat) : ∀ (env : Nat → Attempt) (l g : Nat),
    (∀ n, (env n).launch = none) →
    runAux env budget l g = ⟨RunOutcome.exhausted, l + budget, g⟩ := by
  induction budget with
  | zero => intro env l g h; simp [runAux]
  | succ b ih =>
    intro env l g h
    rw [runAux]
    simp only [h 0]
    rw [ih (fun n => env (n + 1)) (l + 1) g (fun n => h (n + 1))]
    have h1 : l + 1 + b = l + (b + 1) := by omega
    rw [h1]

theorem runAux_all_failed_status (budget : Nat) : ∀ (env : Nat → Attempt) (l g : Nat),
    (∀ n, ∃ s, (env n).launch = some s ∧ s ≠ "" ∧
      poll_canfar (env n).obs = some (some CanfarStatus.failed)) →
    runAux env budget l g = ⟨RunOutcome.exhausted, l + budget, g + budget⟩ := by
  induction budget with
  | zero => intro env l g h; simp [runAux]
  | succ b ih =>
    intro env l g h
    obtain ⟨s, hl, hs, hp⟩ := h 0
    rw [runAux]
    simp only [hl, if_neg hs, hp]
    rw [if_neg (by decide)]
    rw [ih (fun n => env (n + 1)) (l + 1) (g + 1) (fun n => h (n + 1))]
    have h1 : l + 1 + b = l + (b + 1) := by omega
    have h2 : g + 1 + b = g + (b + 1) := by omega
    rw [h1, h2]

theorem runAux_succeeds_at (k : Nat) : ∀ (budget : Nat) (env : Nat → Attempt) (l g : Nat),
    k < budget →
    (∀ n < k, attemptFails (env n) = true) →
    attemptSucceeds (env k) = true →
    (runAux env budget l g).outcome = RunOutcome.success ∧
    (runAux env budget l g).launches = l + k + 1 := by
  induction k with
  | zero =>
    intro budget env l g hk hfail hsucc
    match budget, hk with
    | b + 1, _ =>
      cases hl : (env 0).launch with
      | none => simp [attemptSucceeds, hl] at hsucc
      | some s =>
        by_cases hs : s = ""
        · simp [attemptSucceeds, hl, hs] at hsucc
        · cases hp : poll_canfar (env 0).obs with
          | none => simp [attemptSucceeds, hl, if_neg hs, hp] at hsucc
          | some st =>
            simp only [attemptSucceeds, hl, if_neg hs, hp] at hsucc
            rw [runAux]
            simp only [hl, if_neg hs, hp, if_pos hsucc]
            exact ⟨trivial, trivial⟩
  | succ m ih =>
    intro budget env l g hk hfail hsucc
    match budget, hk with
    | b + 1, hk =>
      have hk' : m < b := by omega
      have h0 : attemptFails (env 0) = true := hfail 0 (Nat.succ_pos m)
      have hfail' : ∀ n < m, attemptFails (env (n + 1)) = true :=
        fun n hn => hfail (n + 1) (Nat.succ_lt_succ hn)
      rw [runAux]
      cases hl : (env 0).launch with
      | none =>
        simp only [hl]
        have hrec := ih b (fun n => env (n + 1)) (l + 1) g hk' hfail' hsucc
        exact ⟨hrec.1, by omega⟩
      | some s =>
        by_cases hs : s = ""
        · simp only [hl, if_pos hs]
          have hrec := ih b (fun n => env (n + 1)) (l + 1) g hk' hfail' hsucc
          exact ⟨hrec.1, by omega⟩
        · cases hp : poll_canfar (env 0).obs with
          | none => simp [attemptFails, hl, if_neg hs, hp] at h0
          | some st =>
            have hst : ¬((decide (st = some CanfarStatus.completed) ||
                decide (st = some CanfarStatus.succeeded)) = true) := by
              simp only [attemptFails, hl, if_neg hs, hp] at h0
              simpa using h0
            simp only [hl, if_neg hs, hp, if_neg hst]
            have hrec := ih b (fun n => env (n + 1)) (l + 1) (g + 1) hk' hfail' hsucc
            exact ⟨hrec.1, by omega⟩

/-! ## Supervisor claims -/

/-- Claim C2: the launch function runs at most MAX_RETRY + 1 times; the
supervisor raises the exhaustion error iff all MAX_RETRY + 1 attempts fail
(a raising launch is caught, consuming one attempt, never aborting early);
with MAX_RETRY = 2 and a launch that raises on every call it raises only
after 3 attempts. -/
theorem claim_C2_retry_budget (MAX_RETRY : Nat) (env : Nat → Attempt) :
    (run_canfar_task_with_polling MAX_RETRY env).launches ≤ MAX_RETRY + 1 ∧
    ((run_canfar_task_with_polling MAX_RETRY env).outcome = RunOutcome.exhausted ↔
      ∀ n < MAX_RETRY + 1, attemptFails (env n) = true) ∧
    ((∀ n, (env n).launch = none) →
      run_canfar_task_with_polling MAX_RETRY env =
        ⟨RunOutcome.exhausted, MAX_RETRY + 1, 0⟩) := by
  refine ⟨?_, ?_, ?_⟩
  · simpa using runAux_launches_le (MAX_RETRY + 1) env 0 0
  · exact runAux_exhausted_iff (MAX_RETRY + 1) env 0 0
  · intro h
    simpa using runAux_all_raise (MAX_RETRY + 1) env 0 0 h

/-- Witness for claim C2: MAX_RETRY = 2 and a launch function raising on
every call give exhaustion after exactly 3 launches. -/
theorem claim_C2_witness :
    run_canfar_task_with_polling 2 (fun _ => ⟨none, []⟩) =
      ⟨RunOutcome.exhausted, 3, 0⟩ :=
  (claim_C2_retry_budget 2 (fun _ => ⟨none, []⟩)).2.2 (fun _ => rfl)

/-- Claim C7: when every attempt obtains a session id and polls to `Failed`,
the supervisor raises after exactly MAX_RETRY + 1 attempts and captures the
session logs once per failed attempt (MAX_RETRY + 1 captures in total; with
MAX_RETRY = 2, 3 attempts and 3 captures). -/
theorem claim_C7_forensic_logs (MAX_RETRY : Nat) (env : Nat → Attempt)
    (h : ∀ n, ∃ s, (env n).launch = some s ∧ s ≠ "" ∧
      poll_canfar (env n).obs = some (some CanfarStatus.failed)) :
    run_canfar_task_with_polling MAX_RETRY env =
      ⟨RunOutcome.exhausted, MAX_RETRY + 1, MAX_RETRY + 1⟩ := by
  simpa using runAux_all_failed_status (MAX_RETRY + 1) env 0 0 h

/-- Witness for claim C7: MAX_RETRY = 2 with every attempt polling to
`Failed` raises after 3 attempts with 3 forensic log captures. -/
theorem claim_C7_witness :
    run_canfar_task_with_polling 2
      (fun _ => ⟨some "sid", [some CanfarStatus.failed]⟩) =
      ⟨RunOutcome.exhausted, 3, 3⟩ :=
  claim_C7_forensic_logs 2 (fun _ => ⟨some "sid", [some CanfarStatus.failed]⟩)
    (fun n => ⟨"sid", rfl, by decide, rfl⟩)

/-- Claim C8: if the attempts before `k` fail and attempt `k` obtains a
session id and polls to `Completed` or `Succeeded`, the supervisor returns
normally after exactly `k + 1` launch invocations; the non-terminal statuses
`Pending`/`Running` only make the poll continue, so the observation sequence
[Pending, Running, Completed] polls to `Completed`. -/
theorem claim_C8_success_returns (MAX_RETRY k : Nat) (env : Nat → Attempt)
    (hk : k ≤ MAX_RETRY)
    (hfail : ∀ n < k, attemptFails (env n) = true)
    (hsucc : attemptSucceeds (env k) = true) :
    (run_canfar_task_with_polling MAX_RETRY env).outcome = RunOutcome.success ∧
    (run_canfar_task_with_polling MAX_RETRY env).launches = k + 1 ∧
    poll_canfar [some CanfarStatus.pending, some CanfarStatus.running,
      some CanfarStatus.completed] = some (some CanfarStatus.completed) := by
  have h := runAux_succeeds_at k (MAX_RETRY + 1) env 0 0 (by omega) hfail hsucc
  exact ⟨h.1, by simpa using h.2, rfl⟩

/-- Witness for claim C8: MAX_RETRY = 2, a launch that succeeds and the
polled status sequence [Pending, Running, Completed] return normally after
exactly 1 attempt. -/
theorem claim_C8_witness :
    (run_canfar_task_with_polling 2 (fun _ =>
      ⟨some "sid", [some CanfarStatus.pending, some CanfarStatus.running,
        some CanfarStatus.completed]⟩)).outcome = RunOutcome.success ∧
    (run_canfar_task_with_polling 2 (fun _ =>
      ⟨some "sid", [some CanfarStatus.pending, some CanfarStatus.running,
        some CanfarStatus.completed]⟩)).launches = 0 + 1 ∧
    poll_canfar [some CanfarStatus.pending, some CanfarStatus.running,
      some CanfarStatus.completed] = some (some CanfarStatus.completed) :=
  claim_C8_success_returns 2 0
    (fun _ => ⟨some "sid", [some CanfarStatus.pending, some CanfarStatus.running,
      some CanfarStatus.completed]⟩)
    (Nat.zero_le 2) (fun n hn => absurd hn (Nat.not_lt_zero n)) (by decide)
